import Mathlib

/-!
Shallow embedding of `src/builder.rs` from the `uuid` crate: the 16-byte
UUID value type, the field codec constructors, and the staged `Builder`
with its version/variant bit stampers.  Rust `u8`/`u16`/`u32`/`u64` values
are modelled as `Nat`; every narrowing `as` cast in the source is an
explicit `% 2^w`; bit operations `&`, `|`, `>>`, `<<` are `&&&`, `|||`,
`>>>`, `<<<` on `Nat`.
-/

/-- Sixteen bytes of a UUID, one field per byte index, matching the Rust
`Bytes = [u8; 16]` array.  Each field holds a `u8` value. -/
structure Bytes where
  b0 : Nat
  b1 : Nat
  b2 : Nat
  b3 : Nat
  b4 : Nat
  b5 : Nat
  b6 : Nat
  b7 : Nat
  b8 : Nat
  b9 : Nat
  b10 : Nat
  b11 : Nat
  b12 : Nat
  b13 : Nat
  b14 : Nat
  b15 : Nat
deriving DecidableEq

/-- The UUID value: `pub struct Uuid(Bytes)`. -/
structure Uuid where
  bytes : Bytes
deriving DecidableEq

/-- The staged-construction wrapper: `pub struct Builder(Uuid)`. -/
structure Builder where
  uuid : Uuid
deriving DecidableEq

/-- The four variant markers matched in `Builder::with_variant`. -/
inductive Variant where
  | NCS
  | RFC4122
  | Microsoft
  | Future
deriving DecidableEq

/-- The version markers of the `Version` enum. -/
inductive Version where
  | Nil
  | Mac
  | Dce
  | Md5
  | Random
  | Sha1
  | SortMac
  | SortRand
  | Custom
  | Max
deriving DecidableEq

/-- Modelled from the spec: the numeric discriminants of the `Version`
enum (`v as u8` in `with_version`) are declared in `lib.rs`, outside the
reviewed source.  Spec §3 assigns 1 time-based, 2 DCE, 3 MD5, 4 random,
5 SHA-1, 6 sorted time-based, 7 Unix-millis, 8 custom, with 0 the nil
marker and 15 the max marker. -/
def Version.toNat : Version → Nat
  | .Nil => 0
  | .Mac => 1
  | .Dce => 2
  | .Md5 => 3
  | .Random => 4
  | .Sha1 => 5
  | .SortMac => 6
  | .SortRand => 7
  | .Custom => 8
  | .Max => 15

/-- The eight-byte tail argument `d4: &[u8; 8]` of the field constructors. -/
structure Tail8 where
  t0 : Nat
  t1 : Nat
  t2 : Nat
  t3 : Nat
  t4 : Nat
  t5 : Nat
  t6 : Nat
  t7 : Nat
deriving DecidableEq

/-- The six-byte `node_id: &[u8; 6]` argument of the timestamp constructors. -/
structure Node6 where
  n0 : Nat
  n1 : Nat
  n2 : Nat
  n3 : Nat
  n4 : Nat
  n5 : Nat
deriving DecidableEq

/-- The eleven-byte `random_bytes: &[u8; 11]` argument of
`Builder::from_timestamp_millis`; field `ri` is index `i` of the array. -/
structure Rand11 where
  r0 : Nat
  r1 : Nat
  r2 : Nat
  r3 : Nat
  r4 : Nat
  r5 : Nat
  r6 : Nat
  r7 : Nat
  r8 : Nat
  r9 : Nat
  r10 : Nat
deriving DecidableEq

/-- Rust `core::time::Duration`: whole seconds plus a sub-second
nanosecond count (< 10^9 in any value Rust constructs). -/
structure Duration where
  secs : Nat
  nanos : Nat
deriving DecidableEq

/-- `Duration::as_millis`: `secs * 1000 + nanos / 1_000_000` (as `u128`;
no overflow is possible since `secs < 2^64`). -/
def Duration.as_millis (d : Duration) : Nat :=
  d.secs * 1000 + d.nanos / 1000000

/-- `Uuid::from_bytes`: wraps the byte array verbatim. -/
def Uuid.from_bytes (b : Bytes) : Uuid := ⟨b⟩

/-- `Uuid::from_bytes_le`: swaps bytes within positions 0-3, 4-5, 6-7 and
copies 8-15 verbatim. -/
def Uuid.from_bytes_le (b : Bytes) : Uuid :=
  ⟨⟨b.b3, b.b2, b.b1, b.b0, b.b5, b.b4, b.b7, b.b6,
    b.b8, b.b9, b.b10, b.b11, b.b12, b.b13, b.b14, b.b15⟩⟩

/-- `Uuid::from_fields`: big-endian assembly of a `u32`, two `u16`s and an
eight-byte tail; each `as u8` narrowing is `% 256`. -/
def Uuid.from_fields (d1 d2 d3 : Nat) (d4 : Tail8) : Uuid :=
  Uuid.from_bytes
    ⟨(d1 >>> 24) % 256, (d1 >>> 16) % 256, (d1 >>> 8) % 256, d1 % 256,
     (d2 >>> 8) % 256, d2 % 256,
     (d3 >>> 8) % 256, d3 % 256,
     d4.t0, d4.t1, d4.t2, d4.t3, d4.t4, d4.t5, d4.t6, d4.t7⟩

/-- `Uuid::from_fields_le`: the three numeric fields are laid down
byte-reversed; the tail is verbatim. -/
def Uuid.from_fields_le (d1 d2 d3 : Nat) (d4 : Tail8) : Uuid :=
  Uuid.from_bytes
    ⟨d1 % 256, (d1 >>> 8) % 256, (d1 >>> 16) % 256, (d1 >>> 24) % 256,
     d2 % 256, (d2 >>> 8) % 256,
     d3 % 256, (d3 >>> 8) % 256,
     d4.t0, d4.t1, d4.t2, d4.t3, d4.t4, d4.t5, d4.t6, d4.t7⟩

/-- Error kind carried by slice ingestion: `ErrorKind::ByteLength { len }`. -/
inductive ErrorKind where
  | byteLength (len : Nat)
deriving DecidableEq

/-- The crate error wrapper `Error(ErrorKind)`. -/
structure Error where
  kind : ErrorKind
deriving DecidableEq

/-- Copies the first sixteen entries of a length-16 list into a `Bytes`
value, mirroring `bytes.copy_from_slice(b)` after the length check. -/
def Bytes.ofList (b : List Nat) : Bytes :=
  ⟨b.getD 0 0, b.getD 1 0, b.getD 2 0, b.getD 3 0,
   b.getD 4 0, b.getD 5 0, b.getD 6 0, b.getD 7 0,
   b.getD 8 0, b.getD 9 0, b.getD 10 0, b.getD 11 0,
   b.getD 12 0, b.getD 13 0, b.getD 14 0, b.getD 15 0⟩

/-- `Uuid::from_slice`: rejects any length other than 16 with
`ByteLength { len }`, otherwise copies the bytes verbatim. -/
def Uuid.from_slice (b : List Nat) : Except Error Uuid :=
  if b.length ≠ 16 then .error ⟨.byteLength b.length⟩
  else .ok (Uuid.from_bytes (Bytes.ofList b))

/-- `Uuid::from_slice_le`: same length check, then the little-endian
byte-array constructor. -/
def Uuid.from_slice_le (b : List Nat) : Except Error Uuid :=
  if b.length ≠ 16 then .error ⟨.byteLength b.length⟩
  else .ok (Uuid.from_bytes_le (Bytes.ofList b))

/-- `Builder::from_bytes`. -/
def Builder.from_bytes (b : Bytes) : Builder := ⟨Uuid.from_bytes b⟩

/-- `Builder::from_fields`. -/
def Builder.from_fields (d1 d2 d3 : Nat) (d4 : Tail8) : Builder :=
  ⟨Uuid.from_fields d1 d2 d3 d4⟩

/-- `Builder::with_variant`: masked rewrite of the top bits of byte 8
according to the matched marker. -/
def Builder.with_variant (s : Builder) (v : Variant) : Builder :=
  let byte := s.uuid.bytes.b8
  ⟨⟨{ s.uuid.bytes with b8 :=
      match v with
      | .NCS => byte &&& 0x7f
      | .RFC4122 => (byte &&& 0x3f) ||| 0x80
      | .Microsoft => (byte &&& 0x1f) ||| 0xc0
      | .Future => byte ||| 0xe0 }⟩⟩

/-- `Builder::with_version`: `b[6] = (b[6] & 0x0f) | ((v as u8) << 4)`;
the `u8` shift result is reduced `% 256`. -/
def Builder.with_version (s : Builder) (v : Version) : Builder :=
  ⟨⟨{ s.uuid.bytes with b6 :=
      (s.uuid.bytes.b6 &&& 0x0f) ||| ((v.toNat <<< 4) % 256) }⟩⟩

/-- `Builder::from_rfc4122_timestamp` (version 1). -/
def Builder.from_rfc4122_timestamp (ticks counter : Nat) (node_id : Node6) :
    Builder :=
  let time_low := ticks &&& 0xFFFFFFFF
  let time_mid := (ticks >>> 32) &&& 0xFFFF
  let time_high_and_version := ((ticks >>> 48) &&& 0x0FFF) ||| (1 <<< 12)
  let d4 : Tail8 :=
    ⟨(((counter &&& 0x3F00) >>> 8) % 256) ||| 0x80,
     (counter &&& 0xFF) % 256,
     node_id.n0, node_id.n1, node_id.n2, node_id.n3, node_id.n4, node_id.n5⟩
  Builder.from_fields time_low time_mid time_high_and_version d4

/-- `Builder::from_sorted_rfc4122_timestamp` (version 6). -/
def Builder.from_sorted_rfc4122_timestamp (ticks counter : Nat)
    (node_id : Node6) : Builder :=
  let time_high := (ticks >>> 28) &&& 0xFFFFFFFF
  let time_mid := (ticks >>> 12) &&& 0xFFFF
  let time_low_and_version := (ticks &&& 0x0FFF) ||| (0x6 <<< 12)
  let d4 : Tail8 :=
    ⟨(((counter &&& 0x3F00) >>> 8) % 256) ||| 0x80,
     (counter &&& 0xFF) % 256,
     node_id.n0, node_id.n1, node_id.n2, node_id.n3, node_id.n4, node_id.n5⟩
  Builder.from_fields time_high time_mid time_low_and_version d4

/-- `Builder::from_timestamp_millis` (version 7): `as_millis() as u64` is
the narrowing `% 2^64`; the random bytes are OR-ed into the version word
exactly as the source writes them, without any mask. -/
def Builder.from_timestamp_millis (since_unix_epoch : Duration)
    (random_bytes : Rand11) : Builder :=
  let millis := since_unix_epoch.as_millis % (2 ^ 64)
  let ms_high := (millis >>> 16) &&& 0xFFFFFFFF
  let ms_low := millis &&& 0xFFFF
  let rng_ver :=
    random_bytes.r0 ||| (random_bytes.r1 <<< 8) ||| (0x7 <<< 12)
  let rng_rest : Tail8 :=
    ⟨(random_bytes.r2 &&& 0x3F) ||| 0x80,
     random_bytes.r3, random_bytes.r4, random_bytes.r5, random_bytes.r6,
     random_bytes.r7, random_bytes.r8, random_bytes.r9⟩
  Builder.from_fields ms_high ms_low rng_ver rng_rest

/-- `Builder::from_custom_bytes` (version 8). -/
def Builder.from_custom_bytes (b : Bytes) : Builder :=
  ((Builder.from_bytes b).with_variant .RFC4122).with_version .Custom

/-- `Builder::from_random_bytes` (version 4). -/
def Builder.from_random_bytes (b : Bytes) : Builder :=
  ((Builder.from_bytes b).with_variant .RFC4122).with_version .Random

/-- `Builder::from_md5_bytes` (version 3). -/
def Builder.from_md5_bytes (b : Bytes) : Builder :=
  ((Builder.from_bytes b).with_variant .RFC4122).with_version .Md5

/-- `Builder::from_sha1_bytes` (version 5). -/
def Builder.from_sha1_bytes (b : Bytes) : Builder :=
  ((Builder.from_bytes b).with_variant .RFC4122).with_version .Sha1

/-- Field-swapping map written from the spec's words for the endian
duality property: reverses bytes 0-3, 4-5, 6-7 and leaves 8-15 unchanged. -/
def swap3Fields (b : Bytes) : Bytes :=
  ⟨b.b3, b.b2, b.b1, b.b0, b.b5, b.b4, b.b7, b.b6,
   b.b8, b.b9, b.b10, b.b11, b.b12, b.b13, b.b14, b.b15⟩

/-! ## Helper lemmas for bit arithmetic -/

theorem lor_mod_two_pow (a b n : Nat) :
    (a ||| b) % 2 ^ n = (a % 2 ^ n) ||| (b % 2 ^ n) := by
  simp [← Nat.and_pow_two_sub_one_eq_mod, Nat.and_distrib_right]

theorem lor_eq_add (k q b : Nat) (hb : b < 2 ^ k) :
    b ||| 2 ^ k * q = 2 ^ k * q + b := by
  rw [Nat.or_comm, ← Nat.mul_add_lt_is_or hb]

theorem shiftRight_land (x y n : Nat) :
    (x &&& y) >>> n = (x >>> n) &&& (y >>> n) := by
  apply Nat.eq_of_testBit_eq
  intro i
  simp

theorem and_15 (x : Nat) : x &&& 15 = x % 16 := by
  simpa using Nat.and_pow_two_sub_one_eq_mod x 4

theorem and_31 (x : Nat) : x &&& 31 = x % 32 := by
  simpa using Nat.and_pow_two_sub_one_eq_mod x 5

theorem and_63 (x : Nat) : x &&& 63 = x % 64 := by
  simpa using Nat.and_pow_two_sub_one_eq_mod x 6

theorem and_127 (x : Nat) : x &&& 127 = x % 128 := by
  simpa using Nat.and_pow_two_sub_one_eq_mod x 7

theorem and_255 (x : Nat) : x &&& 255 = x % 256 := by
  simpa using Nat.and_pow_two_sub_one_eq_mod x 8

theorem and_4095 (x : Nat) : x &&& 4095 = x % 4096 := by
  simpa using Nat.and_pow_two_sub_one_eq_mod x 12

theorem and_65535 (x : Nat) : x &&& 65535 = x % 65536 := by
  simpa using Nat.and_pow_two_sub_one_eq_mod x 16

theorem and_u32max (x : Nat) : x &&& 4294967295 = x % 4294967296 := by
  simpa using Nat.and_pow_two_sub_one_eq_mod x 32

/-! ## Claim theorems -/

/-- C3: for every 16-byte array `b`, `Uuid::from_bytes_le b` equals
`Uuid::from_bytes (swap3Fields b)`, where `swap3Fields` reverses bytes
0-3, 4-5 and 6-7 and leaves 8-15 unchanged. -/
theorem from_bytes_le_eq_swap3Fields (b : Bytes) :
    Uuid.from_bytes_le b = Uuid.from_bytes (swap3Fields b) := rfl

/-- C7: `Uuid::from_fields` places the big-endian bytes of `d1` at
positions 0-3, of `d2` at 4-5, of `d3` at 6-7 and copies `d4` verbatim
into 8-15; `Uuid::from_fields_le` places the same numeric fields
byte-reversed within the same positions and copies `d4` verbatim. -/
theorem from_fields_layout (d1 d2 d3 : Nat) (d4 : Tail8)
    (h1 : d1 < 2 ^ 32) (h2 : d2 < 2 ^ 16) (h3 : d3 < 2 ^ 16) :
    Uuid.from_fields d1 d2 d3 d4 =
      ⟨⟨d1 / 2 ^ 24, d1 / 2 ^ 16 % 256, d1 / 2 ^ 8 % 256, d1 % 256,
        d2 / 2 ^ 8, d2 % 256, d3 / 2 ^ 8, d3 % 256,
        d4.t0, d4.t1, d4.t2, d4.t3, d4.t4, d4.t5, d4.t6, d4.t7⟩⟩ ∧
    Uuid.from_fields_le d1 d2 d3 d4 =
      ⟨⟨d1 % 256, d1 / 2 ^ 8 % 256, d1 / 2 ^ 16 % 256, d1 / 2 ^ 24,
        d2 % 256, d2 / 2 ^ 8, d3 % 256, d3 / 2 ^ 8,
        d4.t0, d4.t1, d4.t2, d4.t3, d4.t4, d4.t5, d4.t6, d4.t7⟩⟩ := by
  constructor <;>
  · simp only [Uuid.from_fields, Uuid.from_fields_le, Uuid.from_bytes,
      Uuid.mk.injEq, Bytes.mk.injEq, Nat.shiftRight_eq_div_pow]
    norm_num
    omega

/-- Witness for C7 at the spec's concrete scenario. -/
theorem from_fields_layout_witness :
    Uuid.from_fields 0xa1a2a3a4 0xb1b2 0xc1c2
        ⟨0xd1, 0xd2, 0xd3, 0xd4, 0xd5, 0xd6, 0xd7, 0xd8⟩ =
      ⟨⟨0xa1, 0xa2, 0xa3, 0xa4, 0xb1, 0xb2, 0xc1, 0xc2,
        0xd1, 0xd2, 0xd3, 0xd4, 0xd5, 0xd6, 0xd7, 0xd8⟩⟩ ∧
    Uuid.from_fields_le 0xa1a2a3a4 0xb1b2 0xc1c2
        ⟨0xd1, 0xd2, 0xd3, 0xd4, 0xd5, 0xd6, 0xd7, 0xd8⟩ =
      ⟨⟨0xa4, 0xa3, 0xa2, 0xa1, 0xb2, 0xb1, 0xc2, 0xc1,
        0xd1, 0xd2, 0xd3, 0xd4, 0xd5, 0xd6, 0xd7, 0xd8⟩⟩ := by
  have h := from_fields_layout 0xa1a2a3a4 0xb1b2 0xc1c2
    ⟨0xd1, 0xd2, 0xd3, 0xd4, 0xd5, 0xd6, 0xd7, 0xd8⟩
    (by norm_num) (by norm_num) (by norm_num)
  simpa using h

/-- C6: `Uuid::from_slice` and `Uuid::from_slice_le` fail with a
length-mismatch error carrying the observed length exactly when the input
length is not 16, and succeed with the bytes copied verbatim (resp.
field-swapped) exactly when the length is 16. -/
theorem from_slice_length_check (b : List Nat) :
    (b.length ≠ 16 →
      Uuid.from_slice b = .error ⟨.byteLength b.length⟩ ∧
      Uuid.from_slice_le b = .error ⟨.byteLength b.length⟩) ∧
    (b.length = 16 →
      Uuid.from_slice b = .ok (Uuid.from_bytes (Bytes.ofList b)) ∧
      Uuid.from_slice_le b = .ok (Uuid.from_bytes_le (Bytes.ofList b))) := by
  constructor <;> intro h <;>
    simp [Uuid.from_slice, Uuid.from_slice_le, h]

/-- Witness for C6 at lengths 0, 15, 17 and 16. -/
theorem from_slice_length_check_witness :
    (([] : List Nat).length ≠ 16 ∧
      Uuid.from_slice [] = .error ⟨.byteLength 0⟩) ∧
    ((List.replicate 15 (0 : Nat)).length ≠ 16 ∧
      Uuid.from_slice (List.replicate 15 (0 : Nat)) = .error ⟨.byteLength 15⟩) ∧
    ((List.replicate 17 (0 : Nat)).length ≠ 16 ∧
      Uuid.from_slice_le (List.replicate 17 (0 : Nat)) = .error ⟨.byteLength 17⟩) ∧
    ((List.replicate 16 (0 : Nat)).length = 16 ∧
      Uuid.from_slice (List.replicate 16 (0 : Nat)) =
        .ok (Uuid.from_bytes (Bytes.ofList (List.replicate 16 (0 : Nat))))) := by
  refine ⟨⟨by decide, ?_⟩, ⟨by decide, ?_⟩, ⟨by decide, ?_⟩, ⟨by decide, ?_⟩⟩
  · exact ((from_slice_length_check []).1 (by decide)).1
  · exact ((from_slice_length_check (List.replicate 15 0)).1 (by decide)).1
  · exact ((from_slice_length_check (List.replicate 17 0)).1 (by decide)).2
  · exact ((from_slice_length_check (List.replicate 16 0)).2 (by decide)).1

/-- C1 (failing evaluation): at `since_unix_epoch = 0` and the 11-byte
random buffer `[0, 0xFF, 0, 0, 0, 0, 0, 0, 0, 0, 0]`,
`Builder::from_timestamp_millis` yields byte 6 with top nibble 15, not
the version nibble 7 the claim requires: the source OR-s
`(random_bytes[1] as u16) << 8` into the version word without masking it
to 12 bits. -/
theorem from_timestamp_millis_version_nibble_bug :
    ((Builder.from_timestamp_millis ⟨0, 0⟩
        ⟨0, 0xFF, 0, 0, 0, 0, 0, 0, 0, 0, 0⟩).uuid.bytes.b6) >>> 4 = 15 := by
  decide

/-- C10: `Builder::from_timestamp_millis` never reads index 10 of its
random buffer: two buffers agreeing on indices 0 through 9 produce the
same value for every duration. -/
theorem from_timestamp_millis_ignores_last_byte (d : Duration)
    (r s : Rand11) (h0 : r.r0 = s.r0) (h1 : r.r1 = s.r1) (h2 : r.r2 = s.r2)
    (h3 : r.r3 = s.r3) (h4 : r.r4 = s.r4) (h5 : r.r5 = s.r5)
    (h6 : r.r6 = s.r6) (h7 : r.r7 = s.r7) (h8 : r.r8 = s.r8)
    (h9 : r.r9 = s.r9) :
    Builder.from_timestamp_millis d r = Builder.from_timestamp_millis d s := by
  simp [Builder.from_timestamp_millis, h0, h1, h2, h3, h4, h5, h6, h7, h8, h9]

/-- Witness for C10: two buffers differing only at index 10. -/
theorem from_timestamp_millis_ignores_last_byte_witness :
    (Rand11.mk 1 2 3 4 5 6 7 8 9 10 11).r0 =
        (Rand11.mk 1 2 3 4 5 6 7 8 9 10 200).r0 ∧
    Builder.from_timestamp_millis ⟨1, 2⟩ ⟨1, 2, 3, 4, 5, 6, 7, 8, 9, 10, 11⟩ =
      Builder.from_timestamp_millis ⟨1, 2⟩ ⟨1, 2, 3, 4, 5, 6, 7, 8, 9, 10, 200⟩ :=
  ⟨rfl, from_timestamp_millis_ignores_last_byte ⟨1, 2⟩ _ _
    rfl rfl rfl rfl rfl rfl rfl rfl rfl rfl⟩

/-- C9: each of `from_custom_bytes`, `from_random_bytes`, `from_md5_bytes`
and `from_sha1_bytes` keeps its input verbatim except that byte 6's top
nibble becomes the version number (8, 4, 3, 5 respectively) over the
preserved low nibble, and byte 8's top two bits become `10` over the
preserved low 6 bits. -/
theorem derived_constructors_layout (b : Bytes) :
    Builder.from_custom_bytes b =
      ⟨⟨⟨b.b0, b.b1, b.b2, b.b3, b.b4, b.b5, 8 * 16 + b.b6 % 16, b.b7,
         128 + b.b8 % 64, b.b9, b.b10, b.b11, b.b12, b.b13, b.b14, b.b15⟩⟩⟩ ∧
    Builder.from_random_bytes b =
      ⟨⟨⟨b.b0, b.b1, b.b2, b.b3, b.b4, b.b5, 4 * 16 + b.b6 % 16, b.b7,
         128 + b.b8 % 64, b.b9, b.b10, b.b11, b.b12, b.b13, b.b14, b.b15⟩⟩⟩ ∧
    Builder.from_md5_bytes b =
      ⟨⟨⟨b.b0, b.b1, b.b2, b.b3, b.b4, b.b5, 3 * 16 + b.b6 % 16, b.b7,
         128 + b.b8 % 64, b.b9, b.b10, b.b11, b.b12, b.b13, b.b14, b.b15⟩⟩⟩ ∧
    Builder.from_sha1_bytes b =
      ⟨⟨⟨b.b0, b.b1, b.b2, b.b3, b.b4, b.b5, 5 * 16 + b.b6 % 16, b.b7,
         128 + b.b8 % 64, b.b9, b.b10, b.b11, b.b12, b.b13, b.b14, b.b15⟩⟩⟩ := by
  have h128 : ∀ x : Nat, x % 16 ||| 128 = 128 + x % 16 := fun x => by
    simpa using lor_eq_add 4 8 (x % 16) (by omega)
  have h64 : ∀ x : Nat, x % 16 ||| 64 = 64 + x % 16 := fun x => by
    simpa using lor_eq_add 4 4 (x % 16) (by omega)
  have h48 : ∀ x : Nat, x % 16 ||| 48 = 48 + x % 16 := fun x => by
    simpa using lor_eq_add 4 3 (x % 16) (by omega)
  have h80 : ∀ x : Nat, x % 16 ||| 80 = 80 + x % 16 := fun x => by
    simpa using lor_eq_add 4 5 (x % 16) (by omega)
  have h8or : ∀ x : Nat, x % 64 ||| 128 = 128 + x % 64 := fun x => by
    simpa using lor_eq_add 7 1 (x % 64) (by omega)
  refine ⟨?_, ?_, ?_, ?_⟩ <;>
  · simp only [Builder.from_custom_bytes, Builder.from_random_bytes,
      Builder.from_md5_bytes, Builder.from_sha1_bytes, Builder.from_bytes,
      Builder.with_variant, Builder.with_version, Uuid.from_bytes,
      Version.toNat, Builder.mk.injEq, Uuid.mk.injEq, Bytes.mk.injEq]
    norm_num [Nat.shiftLeft_eq, and_15, and_63, h128, h64, h48, h80, h8or]

theorem counter_hi_byte (c : Nat) (h : c < 16384) :
    (((c &&& 0x3F00) >>> 8) % 256) ||| 0x80 = 128 + c / 256 := by
  rw [shiftRight_land]
  have h1 : c >>> 8 &&& (0x3F00 >>> 8) = (c >>> 8) % 64 := by
    simpa using Nat.and_pow_two_sub_one_eq_mod (c >>> 8) 6
  norm_num at h1 ⊢
  rw [h1, Nat.shiftRight_eq_div_pow]
  have h2 : c / 2 ^ 8 % 64 % 256 = c / 256 % 64 := by norm_num; omega
  rw [h2]
  have h3 : c / 256 % 64 ||| 128 = 128 + c / 256 % 64 := by
    have := lor_eq_add 7 1 (c / 256 % 64) (by omega)
    simpa using this
  rw [h3]
  omega

/-- C2: layout of the version-1 constructor: low 32 bits of `ticks`
big-endian at bytes 0-3, bits 32-47 at bytes 4-5, version nibble 1 over
bits 56-59 at byte 6, bits 48-55 at byte 7, the counter's top 6 bits
under variant bits `10` at byte 8, its low 8 bits at byte 9, and the node
id verbatim at bytes 10-15. -/
theorem from_rfc4122_timestamp_layout (ticks counter : Nat) (node_id : Node6)
    (ht : ticks < 2 ^ 60) (hc : counter < 2 ^ 14) :
    Builder.from_rfc4122_timestamp ticks counter node_id =
      ⟨⟨⟨ticks / 2 ^ 24 % 256, ticks / 2 ^ 16 % 256,
         ticks / 2 ^ 8 % 256, ticks % 256,
         ticks / 2 ^ 40 % 256, ticks / 2 ^ 32 % 256,
         16 + ticks / 2 ^ 56, ticks / 2 ^ 48 % 256,
         128 + counter / 256, counter % 256,
         node_id.n0, node_id.n1, node_id.n2, node_id.n3,
         node_id.n4, node_id.n5⟩⟩⟩ := by
  have h4096 : ∀ x : Nat, x % 4096 ||| 1 <<< 12 = 4096 + x % 4096 := fun x => by
    simpa using lor_eq_add 12 1 (x % 4096) (by omega)
  simp only [Builder.from_rfc4122_timestamp, Builder.from_fields,
    Uuid.from_fields, Uuid.from_bytes, Builder.mk.injEq, Uuid.mk.injEq,
    Bytes.mk.injEq]
  rw [counter_hi_byte counter (by omega), and_u32max, and_65535, and_4095,
    and_255, h4096]
  simp only [Nat.shiftRight_eq_div_pow]
  norm_num
  omega

/-- Witness for C2 at the spec's concrete scenario `ticks = 0`,
`counter = 0`, all-zero node id: version nibble 1 at byte 6, variant bits
`10` at byte 8, every other byte zero. -/
theorem from_rfc4122_timestamp_layout_witness :
    (0 : Nat) < 2 ^ 60 ∧ (0 : Nat) < 2 ^ 14 ∧
    Builder.from_rfc4122_timestamp 0 0 ⟨0, 0, 0, 0, 0, 0⟩ =
      ⟨⟨⟨0, 0, 0, 0, 0, 0, 16, 0, 128, 0, 0, 0, 0, 0, 0, 0⟩⟩⟩ := by
  refine ⟨by norm_num, by norm_num, ?_⟩
  have h := from_rfc4122_timestamp_layout 0 0 ⟨0, 0, 0, 0, 0, 0⟩
    (by norm_num) (by norm_num)
  simpa using h

/-- C8: layout of the version-6 constructor: top 32 bits of the 60-bit
`ticks` big-endian at bytes 0-3, the next 16 bits at bytes 4-5, version
nibble 6 over the top 4 of the low 12 bits at byte 6, the low 8 bits at
byte 7, and the same counter/node packing as the version-1 constructor
at bytes 8-15. -/
theorem from_sorted_rfc4122_timestamp_layout (ticks counter : Nat)
    (node_id : Node6) (ht : ticks < 2 ^ 60) (hc : counter < 2 ^ 14) :
    Builder.from_sorted_rfc4122_timestamp ticks counter node_id =
      ⟨⟨⟨ticks / 2 ^ 52 % 256, ticks / 2 ^ 44 % 256,
         ticks / 2 ^ 36 % 256, ticks / 2 ^ 28 % 256,
         ticks / 2 ^ 20 % 256, ticks / 2 ^ 12 % 256,
         96 + ticks % 2 ^ 12 / 256, ticks % 256,
         128 + counter / 256, counter % 256,
         node_id.n0, node_id.n1, node_id.n2, node_id.n3,
         node_id.n4, node_id.n5⟩⟩⟩ := by
  have h24576 : ∀ x : Nat, x % 4096 ||| 0x6 <<< 12 = 24576 + x % 4096 :=
    fun x => by simpa using lor_eq_add 12 6 (x % 4096) (by omega)
  simp only [Builder.from_sorted_rfc4122_timestamp, Builder.from_fields,
    Uuid.from_fields, Uuid.from_bytes, Builder.mk.injEq, Uuid.mk.injEq,
    Bytes.mk.injEq]
  rw [counter_hi_byte counter (by omega), and_u32max, and_65535, and_4095,
    and_255, h24576]
  simp only [Nat.shiftRight_eq_div_pow]
  norm_num
  omega

/-- Witness for C8 at `ticks = 0`, `counter = 0`, all-zero node id:
version nibble 6 at byte 6, variant bits `10` at byte 8. -/
theorem from_sorted_rfc4122_timestamp_layout_witness :
    (0 : Nat) < 2 ^ 60 ∧ (0 : Nat) < 2 ^ 14 ∧
    Builder.from_sorted_rfc4122_timestamp 0 0 ⟨0, 0, 0, 0, 0, 0⟩ =
      ⟨⟨⟨0, 0, 0, 0, 0, 0, 96, 0, 128, 0, 0, 0, 0, 0, 0, 0⟩⟩⟩ := by
  refine ⟨by norm_num, by norm_num, ?_⟩
  have h := from_sorted_rfc4122_timestamp_layout 0 0 ⟨0, 0, 0, 0, 0, 0⟩
    (by norm_num) (by norm_num)
  simpa using h

theorem variant_relock_NCS (b : Nat) : (b &&& 127) &&& 127 = b &&& 127 := by
  rw [Nat.and_assoc, Nat.and_self]

theorem variant_relock_RFC (b : Nat) :
    ((b &&& 63 ||| 128) &&& 63) ||| 128 = (b &&& 63) ||| 128 := by
  rw [Nat.and_distrib_right, Nat.and_assoc, Nat.and_self, and_63 128]
  norm_num

theorem variant_relock_Microsoft (b : Nat) :
    ((b &&& 31 ||| 192) &&& 31) ||| 192 = (b &&& 31) ||| 192 := by
  rw [Nat.and_distrib_right, Nat.and_assoc, Nat.and_self, and_31 192]
  norm_num

theorem variant_relock_Future (b : Nat) :
    (b ||| 224) ||| 224 = b ||| 224 := by
  rw [Nat.or_assoc, Nat.or_self]

theorem version_lww_core (x a b : Nat) (ha : a % 16 = 0) :
    (((x &&& 15) ||| a) &&& 15) ||| b = (x &&& 15) ||| b := by
  rw [Nat.and_distrib_right, Nat.and_assoc, Nat.and_self, and_15 a, ha,
    Nat.or_zero]

theorem version_shift_mod16 (v : Version) : (v.toNat <<< 4) % 256 % 16 = 0 := by
  cases v <;> decide

/-- C4 counterexample: starting from the all-zero builder, stamping
variant `Future` and then `NCS` leaves byte 8 equal to `0x60`, while
stamping `NCS` alone leaves it `0x00`, so last-write-wins fails for
`with_variant` on distinct markers. -/
theorem with_variant_not_lww :
    ((Builder.from_bytes
        ⟨0, 0, 0, 0, 0, 0, 0, 0, 0, 0, 0, 0, 0, 0, 0, 0⟩).with_variant
          .Future).with_variant .NCS ≠
      (Builder.from_bytes
        ⟨0, 0, 0, 0, 0, 0, 0, 0, 0, 0, 0, 0, 0, 0, 0, 0⟩).with_variant .NCS := by
  decide

/-- C4 (amended): `with_version` satisfies last-write-wins for every pair
of versions, and each stamper is idempotent: `with_variant` applied twice
with the same marker equals a single application; all bytes other than
the stamped one are identical throughout.  (For distinct variant markers
last-write-wins fails, see the counterexample.) -/
theorem stamper_lww_amended (s : Builder) (v1 v2 : Version) (m : Variant) :
    (s.with_version v1).with_version v2 = s.with_version v2 ∧
    (s.with_variant m).with_variant m = s.with_variant m := by
  constructor
  · simp only [Builder.with_version, Builder.mk.injEq, Uuid.mk.injEq,
      Bytes.mk.injEq]
    norm_num
    rw [version_lww_core _ _ _ (version_shift_mod16 v1)]
  · cases m <;>
      simp only [Builder.with_variant, Builder.mk.injEq, Uuid.mk.injEq,
        Bytes.mk.injEq, variant_relock_NCS, variant_relock_RFC,
        variant_relock_Microsoft, variant_relock_Future]

/-- Number of low bits of byte 8 that `with_variant` must leave intact
for each marker: 8 minus the 1, 2, 3 or 3 designated top bits. -/
def variant_preserved_bits : Variant → Nat
  | .NCS => 7
  | .RFC4122 => 6
  | .Microsoft => 5
  | .Future => 5

theorem version_mod16 (x a : Nat) (ha : a % 16 = 0) :
    ((x &&& 15) ||| a) % 16 = x % 16 := by
  have h := lor_mod_two_pow (x &&& 15) a 4
  norm_num at h
  rw [h, ha, Nat.or_zero, and_15]
  omega

/-- C5: bit isolation of the stampers.  `with_version` preserves the low
nibble of byte 6 and every other byte; `with_variant` preserves the low
7, 6, 5 or 5 bits of byte 8 (for NCS, RFC-4122, Microsoft, Future
respectively) and every other byte. -/
theorem stamper_bit_isolation (s : Builder) (v : Version) (m : Variant) :
    ((s.with_version v).uuid.bytes.b6 % 16 = s.uuid.bytes.b6 % 16 ∧
     (s.with_version v).uuid.bytes.b0 = s.uuid.bytes.b0 ∧
     (s.with_version v).uuid.bytes.b1 = s.uuid.bytes.b1 ∧
     (s.with_version v).uuid.bytes.b2 = s.uuid.bytes.b2 ∧
     (s.with_version v).uuid.bytes.b3 = s.uuid.bytes.b3 ∧
     (s.with_version v).uuid.bytes.b4 = s.uuid.bytes.b4 ∧
     (s.with_version v).uuid.bytes.b5 = s.uuid.bytes.b5 ∧
     (s.with_version v).uuid.bytes.b7 = s.uuid.bytes.b7 ∧
     (s.with_version v).uuid.bytes.b8 = s.uuid.bytes.b8 ∧
     (s.with_version v).uuid.bytes.b9 = s.uuid.bytes.b9 ∧
     (s.with_version v).uuid.bytes.b10 = s.uuid.bytes.b10 ∧
     (s.with_version v).uuid.bytes.b11 = s.uuid.bytes.b11 ∧
     (s.with_version v).uuid.bytes.b12 = s.uuid.bytes.b12 ∧
     (s.with_version v).uuid.bytes.b13 = s.uuid.bytes.b13 ∧
     (s.with_version v).uuid.bytes.b14 = s.uuid.bytes.b14 ∧
     (s.with_version v).uuid.bytes.b15 = s.uuid.bytes.b15) ∧
    ((s.with_variant m).uuid.bytes.b8 % 2 ^ variant_preserved_bits m =
       s.uuid.bytes.b8 % 2 ^ variant_preserved_bits m ∧
     (s.with_variant m).uuid.bytes.b0 = s.uuid.bytes.b0 ∧
     (s.with_variant m).uuid.bytes.b1 = s.uuid.bytes.b1 ∧
     (s.with_variant m).uuid.bytes.b2 = s.uuid.bytes.b2 ∧
     (s.with_variant m).uuid.bytes.b3 = s.uuid.bytes.b3 ∧
     (s.with_variant m).uuid.bytes.b4 = s.uuid.bytes.b4 ∧
     (s.with_variant m).uuid.bytes.b5 = s.uuid.bytes.b5 ∧
     (s.with_variant m).uuid.bytes.b6 = s.uuid.bytes.b6 ∧
     (s.with_variant m).uuid.bytes.b7 = s.uuid.bytes.b7 ∧
     (s.with_variant m).uuid.bytes.b9 = s.uuid.bytes.b9 ∧
     (s.with_variant m).uuid.bytes.b10 = s.uuid.bytes.b10 ∧
     (s.with_variant m).uuid.bytes.b11 = s.uuid.bytes.b11 ∧
     (s.with_variant m).uuid.bytes.b12 = s.uuid.bytes.b12 ∧
     (s.with_variant m).uuid.bytes.b13 = s.uuid.bytes.b13 ∧
     (s.with_variant m).uuid.bytes.b14 = s.uuid.bytes.b14 ∧
     (s.with_variant m).uuid.bytes.b15 = s.uuid.bytes.b15) := by
  constructor
  · refine ⟨?_, rfl, rfl, rfl, rfl, rfl, rfl, rfl, rfl, rfl, rfl, rfl,
      rfl, rfl, rfl, rfl⟩
    simp only [Builder.with_version]
    exact version_mod16 _ _ (version_shift_mod16 v)
  · cases m <;>
      refine ⟨?_, rfl, rfl, rfl, rfl, rfl, rfl, rfl, rfl, rfl, rfl, rfl,
        rfl, rfl, rfl, rfl⟩ <;>
      simp only [Builder.with_variant, variant_preserved_bits]
    · rw [and_127]
      omega
    · have h := lor_mod_two_pow (s.uuid.bytes.b8 &&& 63) 128 6
      norm_num at h ⊢
      rw [h, and_63]
      omega
    · have h := lor_mod_two_pow (s.uuid.bytes.b8 &&& 31) 192 5
      norm_num at h ⊢
      rw [h, and_31]
      omega
    · have h := lor_mod_two_pow s.uuid.bytes.b8 224 5
      norm_num at h ⊢
      rw [h]
